import Mathlib

/-!
Shallow embedding of the UNIX SOCK_STREAM protocol layer (src/proto_uxst.c):
the listener bind protocol, pause/unbind, the protocol-wide aggregation
loops and the outbound connect path.  System calls are modelled by an
explicit world record carrying the outcome of each call; filesystem and
event-subsystem side effects are recorded as explicit event traces.
-/

namespace Uxst

/-- POSIX error numbers that the source branches on; every other value is
collapsed into the catch-all constructor. -/
inductive Errno where
  | ENOENT | EADDRINUSE | ENFILE | EMFILE | ENOBUFS | ENOMEM
  | EAFNOSUPPORT | EPROTONOSUPPORT | EINPROGRESS | EALREADY | EISCONN
  | EAGAIN | EADDRNOTAVAIL | ETIMEDOUT | ECONNREFUSED | ENETUNREACH
  | EACCES | EPERM
  | other (n : Nat)
deriving DecidableEq, Repr

/-- Bind-time outcome bits (include/haproxy/errors.h). -/
def ERR_NONE : Nat := 0

/-- Retryable error bit. -/
def ERR_RETRYABLE : Nat := 1

/-- Fatal error bit. -/
def ERR_FATAL : Nat := 2

/-- Abort bit: the whole startup sequence must be aborted. -/
def ERR_ABORT : Nat := 4

/-- Warning-message bit. -/
def ERR_WARN : Nat := 16

/-- Alert-message bit. -/
def ERR_ALERT : Nat := 32

/-- Connect-time outcome enumeration (SF_ERR_* of the source). -/
inductive SfErr where
  | SF_ERR_NONE | SF_ERR_SRVTO | SF_ERR_SRVCL | SF_ERR_PRXCOND
  | SF_ERR_RESOURCE | SF_ERR_INTERNAL
deriving DecidableEq, Repr

/-- Connection-scoped error codes (CO_ER_* of the source) used by this file. -/
inductive CoErr where
  | CO_ER_NONE | CO_ER_SYS_FDLIM | CO_ER_PROC_FDLIM | CO_ER_SYS_MEMLIM
  | CO_ER_NOPROTO | CO_ER_SOCK_ERR | CO_ER_CONF_FDLIM | CO_ER_FREE_PORTS
  | CO_ER_ADDR_INUSE
deriving DecidableEq, Repr

/-- Process-wide tunables read by bind and connect. -/
structure Globals where
  maxsock : Nat
  server_sndbuf : Nat
  server_rcvbuf : Nat
  master : Nat
  pid : Nat
deriving DecidableEq, Repr

/-- A backend proxy (struct proxy): only the identifier is observable here. -/
structure Backend where
  id : String
deriving DecidableEq, Repr

/-- A server (struct server): carries its owning proxy. -/
structure Server where
  proxy : Backend
deriving DecidableEq, Repr

/-- The kinds of connection target this file accepts (obj_type switch). -/
inductive ObjType where
  | proxy (be : Backend)
  | server (srv : Server)
  | other
deriving DecidableEq, Repr

/-- The connection flags this file reads or writes (CO_FL_* bits). -/
structure ConnFlags where
  error : Bool
  waitL4 : Bool
  addrToSet : Bool
  sendProxy : Bool
deriving DecidableEq, Repr

/-- One outbound connection (struct connection), restricted to the fields the
connect path touches. -/
structure Connection where
  target : ObjType
  send_proxy_ofs : Int
  flags : ConnFlags
  err_code : CoErr
  fd : Int
deriving DecidableEq, Repr

/-- Outcomes of the system calls issued by the connect path, supplied by the
environment: the file system and kernel are external to the program. -/
structure ConnectWorld where
  socketFd : Option Nat
  socketErr : Errno
  fcntlNonblockOk : Bool
  fcntlCloexecOk : Bool
  connectErr : Option Errno
  xprtInitOk : Bool
deriving DecidableEq, Repr

/-- Backend-scoped log events (send_log calls): emergency logs name the
backend and the configured maximum socket count. -/
inductive LogEvent where
  | emerg (beId : String) (maxsock : Nat)
  | errlog (beId : String) (msg : String)
deriving DecidableEq, Repr

/-- Which step of the connect path failed, recorded for observability. -/
inductive FailStep where
  | badTarget | socketFail | confFdLim | nonblockFail | cloexecFail
  | connectFail | xprtFail
deriving DecidableEq, Repr

/-- Everything observable about one invocation of the connect path. -/
structure ConnectOutcome where
  ret : SfErr
  conn : Connection
  fdOpen : Option Nat
  registered : Bool
  logs : List LogEvent
  alerts : Nat
  wantSend : Bool
  cantSend : Bool
  cantRecv : Bool
  failStep : Option FailStep
deriving DecidableEq, Repr

/-- Target resolution of the obj_type switch: the backend used for logging,
or none for any unsupported target kind. -/
def connBackend : ObjType → Option Backend
  | ObjType.proxy be => some be
  | ObjType.server srv => some srv.proxy
  | ObjType.other => none

/-- Set the CO_FL_ERROR flag on a connection. -/
def connErrFlag (c : Connection) : Connection :=
  { c with flags := { c.flags with error := true } }

/-- Set the error code and the CO_FL_ERROR flag together. -/
def connFail (c : Connection) (code : CoErr) : Connection :=
  { c with err_code := code, flags := { c.flags with error := true } }

/-- Set or clear the CO_FL_WAIT_L4_CONN flag. -/
def connSetWait (c : Connection) (b : Bool) : Connection :=
  { c with flags := { c.flags with waitL4 := b } }

/-- Shared tail of the connect path after the kernel connect call has been
classified: address-to-set and send-proxy flags, fd registration, readiness
hints when still waiting for L4, then transport initialization. -/
def uxst_connect_tail (c2 : Connection) (fd : Nat) (w : ConnectWorld) : ConnectOutcome :=
  let fl2 := c2.flags
  let fl3 : ConnFlags :=
    { fl2 with addrToSet := true, sendProxy := fl2.sendProxy || decide (c2.send_proxy_ofs ≠ 0) }
  let c3 : Connection := { c2 with flags := fl3 }
  let wait := c3.flags.waitL4
  if w.xprtInitOk then
    { ret := SfErr.SF_ERR_NONE, conn := c3, fdOpen := some fd, registered := true,
      logs := [], alerts := 0, wantSend := wait, cantSend := wait, cantRecv := wait,
      failStep := none }
  else
    { ret := SfErr.SF_ERR_RESOURCE, conn := connErrFlag c3, fdOpen := none, registered := false,
      logs := [], alerts := 0, wantSend := wait, cantSend := wait, cantRecv := wait,
      failStep := some FailStep.xprtFail }

/-- The outbound connect path, uxst_connect_server.  The second argument is
the flags parameter of the source; it is only ever written (CONNECT_HAS_DATA)
and never read again, so it does not reach the outcome.  The setsockopt
buffer-tuning calls have no observable effect on any field modelled here and
are therefore not recorded. -/
def uxst_connect_server (g : Globals) (c0 : Connection) (fl : Nat) (w : ConnectWorld) :
    ConnectOutcome :=
  let _hasData := fl
  match connBackend c0.target with
  | none =>
    { ret := SfErr.SF_ERR_INTERNAL, conn := connErrFlag c0,
      fdOpen := none, registered := false, logs := [], alerts := 0,
      wantSend := false, cantSend := false, cantRecv := false,
      failStep := some FailStep.badTarget }
  | some be =>
    match w.socketFd with
    | none =>
      let e := w.socketErr
      let code : CoErr :=
        if e = Errno.ENFILE then CoErr.CO_ER_SYS_FDLIM
        else if e = Errno.EMFILE then CoErr.CO_ER_PROC_FDLIM
        else if e = Errno.ENOBUFS ∨ e = Errno.ENOMEM then CoErr.CO_ER_SYS_MEMLIM
        else if e = Errno.EAFNOSUPPORT ∨ e = Errno.EPROTONOSUPPORT then CoErr.CO_ER_NOPROTO
        else CoErr.CO_ER_SOCK_ERR
      let logs : List LogEvent :=
        if e = Errno.ENFILE ∨ e = Errno.EMFILE ∨ e = Errno.ENOBUFS ∨ e = Errno.ENOMEM then
          [LogEvent.emerg be.id g.maxsock]
        else []
      { ret := SfErr.SF_ERR_RESOURCE, conn := connFail { c0 with fd := -1 } code,
        fdOpen := none, registered := false, logs := logs, alerts := 0,
        wantSend := false, cantSend := false, cantRecv := false,
        failStep := some FailStep.socketFail }
    | some fd =>
      let c1 : Connection := { c0 with fd := (fd : Int) }
      if g.maxsock ≤ fd then
        { ret := SfErr.SF_ERR_PRXCOND, conn := connFail c1 CoErr.CO_ER_CONF_FDLIM,
          fdOpen := none, registered := false, logs := [], alerts := 1,
          wantSend := false, cantSend := false, cantRecv := false,
          failStep := some FailStep.confFdLim }
      else if ¬ w.fcntlNonblockOk then
        { ret := SfErr.SF_ERR_INTERNAL, conn := connFail c1 CoErr.CO_ER_SOCK_ERR,
          fdOpen := none, registered := false, logs := [], alerts := 0,
          wantSend := false, cantSend := false, cantRecv := false,
          failStep := some FailStep.nonblockFail }
      else if g.master = 1 ∧ ¬ w.fcntlCloexecOk then
        { ret := SfErr.SF_ERR_INTERNAL, conn := connFail c1 CoErr.CO_ER_SOCK_ERR,
          fdOpen := none, registered := false, logs := [], alerts := 1,
          wantSend := false, cantSend := false, cantRecv := false,
          failStep := some FailStep.cloexecFail }
      else
        match w.connectErr with
        | some e =>
          if e = Errno.EINPROGRESS ∨ e = Errno.EALREADY then
            uxst_connect_tail (connSetWait c1 true) fd w
          else if e = Errno.EISCONN then
            uxst_connect_tail (connSetWait c1 false) fd w
          else if e = Errno.EAGAIN ∨ e = Errno.EADDRINUSE ∨ e = Errno.EADDRNOTAVAIL then
            let code : CoErr :=
              if e = Errno.EAGAIN ∨ e = Errno.EADDRNOTAVAIL then CoErr.CO_ER_FREE_PORTS
              else CoErr.CO_ER_ADDR_INUSE
            let m : String :=
              if e = Errno.EAGAIN ∨ e = Errno.EADDRNOTAVAIL then
                "cant connect to destination unix socket, check backlog size on the server"
              else "local address already in use"
            { ret := SfErr.SF_ERR_RESOURCE, conn := connFail c1 code,
              fdOpen := none, registered := false,
              logs := [LogEvent.errlog be.id m], alerts := 0,
              wantSend := false, cantSend := false, cantRecv := false,
              failStep := some FailStep.connectFail }
          else if e = Errno.ETIMEDOUT then
            { ret := SfErr.SF_ERR_SRVTO, conn := connFail c1 CoErr.CO_ER_SOCK_ERR,
              fdOpen := none, registered := false, logs := [], alerts := 0,
              wantSend := false, cantSend := false, cantRecv := false,
              failStep := some FailStep.connectFail }
          else
            { ret := SfErr.SF_ERR_SRVCL, conn := connFail c1 CoErr.CO_ER_SOCK_ERR,
              fdOpen := none, registered := false, logs := [], alerts := 0,
              wantSend := false, cantSend := false, cantRecv := false,
              failStep := some FailStep.connectFail }
        | none =>
          uxst_connect_tail (connSetWait c1 false) fd w

/-- Listener lifecycle states (enum li_state), in their numeric order. -/
inductive LiState where
  | LI_NEW | LI_INIT | LI_ASSIGNED | LI_PAUSED | LI_LISTEN | LI_READY | LI_FULL | LI_LIMITED
deriving DecidableEq, Repr

/-- Numeric value of a lifecycle state, for the order comparisons of the source. -/
def LiState.toNat : LiState → Nat
  | LiState.LI_NEW => 0
  | LiState.LI_INIT => 1
  | LiState.LI_ASSIGNED => 2
  | LiState.LI_PAUSED => 3
  | LiState.LI_LISTEN => 4
  | LiState.LI_READY => 5
  | LiState.LI_FULL => 6
  | LiState.LI_LIMITED => 7

/-- One listener (struct listener), restricted to the fields this file
touches.  The address sun_path is modelled as a string: the empty string is
the abstract-socket case, whose first byte is the zero sentinel. -/
structure Listener where
  state : LiState
  fd : Int
  path : String
  uid : Int
  gid : Int
  mode : Nat
  inherited : Bool
deriving DecidableEq, Repr

/-- MAXPATHLEN of the platform. -/
def MAXPATHLEN : Nat := 4096

/-- Size of the sun_path member of sockaddr_un on the platform. -/
def SUN_PATH_SIZE : Nat := 108

/-- The local maxpathlen variable: MIN(MAXPATHLEN, sizeof(addr.sun_path)). -/
def maxpathlen : Nat := min MAXPATHLEN SUN_PATH_SIZE

/-- Length snprintf reports for "path.pid.tmp" or "path.pid.bak": both
suffixes are four bytes long after the dot separating path from pid. -/
def tmpNameLen (g : Globals) (l : Listener) : Nat :=
  l.path.length + 1 + (toString g.pid).length + 4

/-- Outcomes of the system calls issued by the bind path, supplied by the
environment.  findFd is what sock_find_compatible_fd returns when the
listener holds no descriptor yet. -/
structure BindWorld where
  findFd : Int
  unlinkTempRes : Option Errno
  unlinkBackRes : Option Errno
  linkRes : Option Errno
  socketRes : Option Nat
  fcntlOk : Bool
  bindErr : Option Errno
  chownOk : Bool
  chmodOk : Bool
  acceptConnReady : Option Nat
  listenOk : Bool
  renameOk : Bool
  renameBackErr : Option Errno
deriving DecidableEq, Repr

/-- Filesystem, socket and registration events of the bind path, in program
order.  The temp and back names are symbolic: they are derived
deterministically from the path and the pid. -/
inductive BEv where
  | unlinkTempName | unlinkBackName | unlinkLivePath | linkLiveToBack
  | socketCall | setNonblock (fd : Int) | bindTempName (fd : Int)
  | probeReady | listenCall (fd : Int)
  | renameTempToLive | renameBackToLive
  | closeFd (fd : Int) | fdInsert (fd : Int)
deriving DecidableEq, Repr

/-- Everything observable about one invocation of the bind path: the outcome
bitmask, the listener after the call, the static reason text chosen (none on
success), the caller message buffer after the call, the events of the normal
flow and the events of the unwind chain. -/
structure BindResult where
  err : Nat
  listener : Listener
  msg : Option String
  buf : String
  forward : List BEv
  unwind : List BEv
deriving DecidableEq, Repr

/-- True when a cleanup unlink call failed for a reason other than the file
being absent: unlink() < 0 and errno different from ENOENT. -/
def unlinkFails : Option Errno → Prop
  | none => False
  | some e => e ≠ Errno.ENOENT

instance (r : Option Errno) : Decidable (unlinkFails r) := by
  unfold unlinkFails
  cases r <;> infer_instance

/-- The error message written into the caller buffer: the static reason text
with the address path, or with the descriptor number for externally supplied
sockets. -/
def uxst_bind_errmsg (m : String) (ext : Bool) (path : String) (fd : Int) : String :=
  if ext then m ++ " [fd " ++ toString fd ++ "]" else m ++ " [" ++ path ++ "]"

/-- The err_return label: write the bounded message when one was chosen and
the caller buffer has room. -/
def bind_err_return (e : Nat) (m : Option String) (ext : Bool) (path : String) (fd : Int)
    (l : Listener) (buf : String) (errlen : Nat) (fwd uw : List BEv) : BindResult :=
  let buf' := match m with
    | some s => if errlen ≠ 0 then (uxst_bind_errmsg s ext path fd).take (errlen - 1) else buf
    | none => buf
  { err := e, listener := l, msg := m, buf := buf', forward := fwd, unwind := uw }

/-- The err_unlink_back label: unlink the backup name when this bind created
filesystem entries, then fall through to err_return. -/
def bind_err_unlink_back (e : Nat) (m : Option String) (ext : Bool) (path : String) (fd : Int)
    (l : Listener) (buf : String) (errlen : Nat) (fwd uw : List BEv) : BindResult :=
  bind_err_return e m ext path fd l buf errlen fwd
    (uw ++ if ¬ ext ∧ path ≠ "" then [BEv.unlinkBackName] else [])

/-- The err_unlink_temp label: unlink the temp name when this bind created
filesystem entries, close the descriptor, then fall through to
err_unlink_back. -/
def bind_err_unlink_temp (e : Nat) (m : Option String) (ext : Bool) (path : String) (fd : Int)
    (l : Listener) (buf : String) (errlen : Nat) (fwd uw : List BEv) : BindResult :=
  bind_err_unlink_back e m ext path fd l buf errlen fwd
    (uw ++ (if ¬ ext ∧ path ≠ "" then [BEv.unlinkTempName] else []) ++ [BEv.closeFd fd])

/-- The err_rename label: restore the backup onto the live path, unlinking
the live path outright when the backup itself vanished, then fall through to
err_unlink_temp. -/
def bind_err_rename (w : BindWorld) (e : Nat) (m : Option String) (ext : Bool) (path : String)
    (fd : Int) (l : Listener) (buf : String) (errlen : Nat) (fwd : List BEv) : BindResult :=
  bind_err_unlink_temp e m ext path fd l buf errlen fwd
    ([BEv.renameBackToLive] ++
      if w.renameBackErr = some Errno.ENOENT then [BEv.unlinkLivePath] else [])

/-- The fd_ready part of the bind path, shared between newly created and
externally supplied descriptors: maxsock ceiling, non-blocking mode, the
kernel bind call, ownership and mode changes, the listening probe and the
listen call, then the point-of-no-return rename and the switch to LISTEN.
The chown and chmod calls are modelled by their success or failure alone. -/
def uxst_bind_fd_ready (g : Globals) (l : Listener) (w : BindWorld) (path : String)
    (fd : Int) (ext : Bool) (buf : String) (errlen : Nat) (fwd : List BEv) : BindResult :=
  if (g.maxsock : Int) ≤ fd then
    bind_err_unlink_temp (ERR_FATAL ||| ERR_ALERT)
      (some "socket(): not enough free sockets, raise -n argument")
      ext path fd l buf errlen fwd []
  else
    let fwd := fwd ++ [BEv.setNonblock fd]
    if ¬ w.fcntlOk then
      bind_err_unlink_temp (ERR_FATAL ||| ERR_ALERT)
        (some "cannot make UNIX socket non-blocking") ext path fd l buf errlen fwd []
    else
      let fwd := if ¬ ext then fwd ++ [BEv.bindTempName fd] else fwd
      if ¬ ext ∧ w.bindErr.isSome then
        if w.bindErr = some Errno.EADDRINUSE then
          bind_err_unlink_temp (ERR_RETRYABLE ||| ERR_ALERT)
            (some "cannot listen to socket") ext path fd l buf errlen fwd []
        else
          bind_err_unlink_temp (ERR_FATAL ||| ERR_ALERT)
            (some "cannot bind UNIX socket") ext path fd l buf errlen fwd []
      else if ¬ ext ∧ path ≠ "" ∧
          (((l.uid ≠ -1 ∨ l.gid ≠ -1) ∧ ¬ w.chownOk) ∨ (l.mode ≠ 0 ∧ ¬ w.chmodOk)) then
        bind_err_unlink_temp (ERR_FATAL ||| ERR_ALERT)
          (some "cannot change UNIX socket ownership") ext path fd l buf errlen fwd []
      else
        let ready := w.acceptConnReady.getD 0
        let fwd := fwd ++ [BEv.probeReady]
        let doListen := ¬ (ext ∧ ready ≠ 0)
        let fwd := if doListen then fwd ++ [BEv.listenCall fd] else fwd
        if doListen ∧ ¬ w.listenOk then
          bind_err_unlink_temp (ERR_FATAL ||| ERR_ALERT)
            (some "cannot listen to UNIX socket") ext path fd l buf errlen fwd []
        else if ¬ ext ∧ path ≠ "" ∧ ¬ w.renameOk then
          bind_err_rename w (ERR_FATAL ||| ERR_ALERT)
            (some "cannot switch final and temporary UNIX sockets") ext path fd l buf errlen
            (fwd ++ [BEv.renameTempToLive])
        else
          let fwd := fwd ++
            if ¬ ext ∧ path ≠ "" then [BEv.renameTempToLive, BEv.unlinkBackName] else []
          { err := ERR_NONE,
            listener := { l with fd := fd, state := LiState.LI_LISTEN },
            msg := none, buf := buf,
            forward := fwd ++ [BEv.fdInsert fd], unwind := [] }

/-- The non-external front of the bind path: derive the temp and backup
names, clean stale entries, preserve the previous socket, then create the
socket and continue at fd_ready.  For an abstract address no filesystem
interaction happens before the socket call. -/
def uxst_bind_mksock (g : Globals) (l : Listener) (w : BindWorld) (path : String)
    (buf : String) (errlen : Nat) : BindResult :=
  let tooLong := some "name too long for UNIX socket (limit usually 97)"
  if path ≠ "" then
    if SUN_PATH_SIZE ≤ tmpNameLen g l then
      bind_err_return (ERR_FATAL ||| ERR_ALERT) tooLong false path l.fd l buf errlen [] []
    else if maxpathlen ≤ tmpNameLen g l then
      bind_err_return (ERR_FATAL ||| ERR_ALERT) tooLong false path l.fd l buf errlen [] []
    else if unlinkFails w.unlinkTempRes then
      bind_err_return (ERR_FATAL ||| ERR_ALERT)
        (some "error when trying to unlink previous UNIX socket") false path l.fd l buf errlen
        [BEv.unlinkTempName] []
    else if unlinkFails w.unlinkBackRes then
      bind_err_return (ERR_FATAL ||| ERR_ALERT)
        (some "error when trying to unlink previous UNIX socket") false path l.fd l buf errlen
        [BEv.unlinkTempName, BEv.unlinkBackName] []
    else if unlinkFails w.linkRes then
      bind_err_return (ERR_FATAL ||| ERR_ALERT)
        (some "error when trying to preserve previous UNIX socket") false path l.fd l buf errlen
        [BEv.unlinkTempName, BEv.unlinkBackName, BEv.linkLiveToBack] []
    else if SUN_PATH_SIZE ≤ min (tmpNameLen g l) (maxpathlen - 1) then
      bind_err_return (ERR_FATAL ||| ERR_ALERT) tooLong false path l.fd l buf errlen
        [BEv.unlinkTempName, BEv.unlinkBackName, BEv.linkLiveToBack] []
    else
      let fwd := [BEv.unlinkTempName, BEv.unlinkBackName, BEv.linkLiveToBack, BEv.socketCall]
      match w.socketRes with
      | none =>
        bind_err_unlink_back (ERR_FATAL ||| ERR_ALERT) (some "cannot create UNIX socket")
          false path l.fd l buf errlen fwd []
      | some nfd =>
        uxst_bind_fd_ready g l w path (nfd : Int) false buf errlen fwd
  else
    let fwd := [BEv.socketCall]
    match w.socketRes with
    | none =>
      bind_err_unlink_back (ERR_FATAL ||| ERR_ALERT) (some "cannot create UNIX socket")
        false path l.fd l buf errlen fwd []
    | some nfd =>
      uxst_bind_fd_ready g l w path (nfd : Int) false buf errlen fwd

/-- Descriptor the listener effectively holds when bind starts: the one of a
compatible socket looked up when the slot is empty, otherwise its own. -/
def effectiveFd (l : Listener) (w : BindWorld) : Int :=
  if l.fd = -1 then w.findFd else l.fd

/-- True when the descriptor was supplied externally (inherited), so socket
creation and all filesystem steps are skipped. -/
def bindExt (l : Listener) (w : BindWorld) : Bool :=
  0 ≤ effectiveFd l w

/-- The bind path, uxst_bind_listener: clear the caller buffer, no-op unless
the listener is ASSIGNED, detect an externally supplied descriptor, then
run the creation front or jump straight to fd_ready. -/
def uxst_bind_listener (g : Globals) (l0 : Listener) (buf0 : String) (errlen : Nat)
    (w : BindWorld) : BindResult :=
  let buf := if errlen ≠ 0 then "" else buf0
  if l0.state ≠ LiState.LI_ASSIGNED then
    { err := ERR_NONE, listener := l0, msg := none, buf := buf, forward := [], unwind := [] }
  else
    let l : Listener := { l0 with fd := effectiveFd l0 w }
    if bindExt l0 w then
      uxst_bind_fd_ready g l w l.path l.fd true buf errlen []
    else
      uxst_bind_mksock g l w l.path buf errlen

/-- Modelled from the spec: the generic unbind of the listener registry
(src/listener.c, not part of the staged files).  It "releases the descriptor
and associated event-subsystem registration when the listener state exceeds
ASSIGNED; returns the listener to ASSIGNED"; the deep argument of the
lockless variant selects full teardown and is not otherwise observable
here. -/
def do_unbind_listener (l : Listener) (_deep : Bool) : Listener :=
  if LiState.LI_ASSIGNED.toNat < l.state.toNat then
    { l with fd := -1, state := LiState.LI_ASSIGNED }
  else l

/-- Modelled from the spec: the locked wrapper unbind_listener of the
listener registry delegates to the lockless deep unbind. -/
def unbind_listener (l : Listener) : Listener :=
  do_unbind_listener l true

/-- The per-listener unbind of this file, uxst_unbind_listener: unbind when
the state exceeds ASSIGNED, always report ERR_NONE. -/
def uxst_unbind_listener (l : Listener) : Nat × Listener :=
  if LiState.LI_ASSIGNED.toNat < l.state.toNat then (ERR_NONE, unbind_listener l)
  else (ERR_NONE, l)

/-- The pause entry, uxst_pause_listener: a path-backed listener reports
paused untouched, an abstract one is fully unbound and reports stopped. -/
def uxst_pause_listener (l : Listener) : Int × Listener :=
  if l.path ≠ "" then (1, l)
  else (0, do_unbind_listener l true)

/-- The bind_all loop, uxst_bind_listeners: bind each attached listener in
list order, accumulate the outcome bits, stop as soon as the accumulated
outcome carries the abort bit.  Each listener comes with the world its own
system calls will see. -/
def uxst_bind_listeners_from (g : Globals) (buf : String) (errlen : Nat) (acc : Nat) :
    List (Listener × BindWorld) → Nat × List BindResult
  | [] => (acc, [])
  | (l, w) :: rest =>
    let r := uxst_bind_listener g l buf errlen w
    let acc' := acc ||| r.err
    if acc' &&& ERR_ABORT ≠ 0 then (acc', [r])
    else
      let res := uxst_bind_listeners_from g buf errlen acc' rest
      (res.1, r :: res.2)

/-- Entry point of the bind_all loop with an empty accumulator. -/
def uxst_bind_listeners (g : Globals) (buf : String) (errlen : Nat)
    (ls : List (Listener × BindWorld)) : Nat × List BindResult :=
  uxst_bind_listeners_from g buf errlen ERR_NONE ls

/-- The unbind_all loop, uxst_unbind_listeners: unbind each attached
listener, then report ERR_NONE. -/
def uxst_unbind_listeners_from : List Listener → List Listener
  | [] => []
  | l :: rest => (uxst_unbind_listener l).2 :: uxst_unbind_listeners_from rest

/-- Entry point of the unbind_all loop: the result the caller sees and every
listener after its unbind. -/
def uxst_unbind_listeners (ls : List Listener) : Nat × List Listener :=
  (ERR_NONE, uxst_unbind_listeners_from ls)

/-- Rank of an event in the required reverse-teardown order of the unwind
chain: restore the backup over the live path first, fall back to unlinking
the live path, then unlink the temp file, close the descriptor, unlink the
backup file.  Events outside the unwind chain have no rank. -/
def BEv.unwindRank : BEv → Option Nat
  | BEv.renameBackToLive => some 0
  | BEv.unlinkLivePath => some 1
  | BEv.unlinkTempName => some 2
  | BEv.closeFd _ => some 3
  | BEv.unlinkBackName => some 4
  | _ => none

/-- Boolean check that a list holds only unwind events whose ranks strictly
increase, starting no lower than k. -/
def unwindOrderedFrom (k : Nat) : List BEv → Bool
  | [] => true
  | e :: rest =>
    match BEv.unwindRank e with
    | none => false
    | some r => decide (k ≤ r) && unwindOrderedFrom (r + 1) rest

/-- A well-shaped unwind: strictly ordered teardown events, and an unlink of
the live path only as the fallback of a failed backup restoration. -/
def unwindShaped (u : List BEv) : Prop :=
  unwindOrderedFrom 0 u = true ∧ (BEv.unlinkLivePath ∈ u → BEv.renameBackToLive ∈ u)

/-- The guard under which the bind path reaches the kernel bind call: the
listener is ASSIGNED with no externally supplied descriptor, the derived
names fit, the stale-entry cleanup and the backup link were tolerated, the
socket was created below the maxsock ceiling, and non-blocking mode was
set. -/
def reachesKernelBind (g : Globals) (l : Listener) (w : BindWorld) : Prop :=
  l.state = LiState.LI_ASSIGNED ∧ bindExt l w = false ∧
  (l.path ≠ "" →
    tmpNameLen g l < SUN_PATH_SIZE ∧ tmpNameLen g l < maxpathlen ∧
    ¬ unlinkFails w.unlinkTempRes ∧ ¬ unlinkFails w.unlinkBackRes ∧
    ¬ unlinkFails w.linkRes) ∧
  (∃ nfd, w.socketRes = some nfd ∧ (nfd : Int) < g.maxsock) ∧
  w.fcntlOk = true

/-- Everything C4 requires of a failed bind invocation: the unwind events
are well shaped in strict reverse-teardown order; a static reason text was
chosen; a backup restoration, when present, heads the unwind and falls back
to unlinking the live path exactly when the backup had vanished; and the
message written combines the reason text with the address path, or with the
descriptor number for externally supplied sockets, bounded by the caller
buffer length. -/
def FailShape (r : BindResult) (w : BindWorld) (ext : Bool) (path : String) (fd : Int)
    (errlen : Nat) : Prop :=
  unwindShaped r.unwind ∧
  r.msg.isSome = true ∧
  (BEv.renameBackToLive ∈ r.unwind →
    r.unwind.head? = some BEv.renameBackToLive ∧
    (BEv.unlinkLivePath ∈ r.unwind ↔ w.renameBackErr = some Errno.ENOENT)) ∧
  (∀ m, r.msg = some m → errlen ≠ 0 →
    r.buf = (uxst_bind_errmsg m ext path fd).take (errlen - 1))

/-- Stated from the words of the spec (section 4.3): accumulate a list of
bind outcomes with bitwise OR, stopping early as soon as the accumulated
outcome carries the abort flag; the pair is the accumulated outcome and how
many outcomes were consumed. -/
def orUntilAbort (acc : Nat) : List Nat → Nat × Nat
  | [] => (acc, 0)
  | e :: rest =>
    let acc' := acc ||| e
    if acc' &&& ERR_ABORT ≠ 0 then (acc', 1)
    else
      let res := orUntilAbort acc' rest
      (res.1, res.2 + 1)

/-- Concrete globals used by the witnesses: maxsock 3, pid 7. -/
def okGlobals : Globals :=
  { maxsock := 3, server_sndbuf := 0, server_rcvbuf := 0, master := 0, pid := 7 }

/-- Concrete connection with a proxy target and a clean error state. -/
def okConn : Connection :=
  { target := ObjType.proxy { id := "b" }, send_proxy_ofs := 0,
    flags := { error := false, waitL4 := false, addrToSet := false, sendProxy := false },
    err_code := CoErr.CO_ER_NONE, fd := -1 }

/-- Concrete connect world in which every call succeeds synchronously. -/
def okConnectWorld : ConnectWorld :=
  { socketFd := some 1, socketErr := Errno.other 0, fcntlNonblockOk := true,
    fcntlCloexecOk := true, connectErr := none, xprtInitOk := true }

/-- Concrete assigned path-backed listener with an empty descriptor slot. -/
def okListener : Listener :=
  { state := LiState.LI_ASSIGNED, fd := -1, path := "p", uid := -1, gid := -1,
    mode := 0, inherited := false }

/-- Concrete bind world in which every call succeeds. -/
def okBindWorld : BindWorld :=
  { findFd := -1, unlinkTempRes := some Errno.ENOENT, unlinkBackRes := some Errno.ENOENT,
    linkRes := some Errno.ENOENT, socketRes := some 2, fcntlOk := true, bindErr := none,
    chownOk := true, chmodOk := true, acceptConnReady := some 0, listenOk := true,
    renameOk := true, renameBackErr := none }

/-- C6: for every listener whose state is not ASSIGNED, bind returns success
without changing the listener and without touching the filesystem or the
socket layer. -/
theorem bind_noop_when_not_assigned (g : Globals) (l : Listener) (buf0 : String)
    (errlen : Nat) (w : BindWorld) (h : l.state ≠ LiState.LI_ASSIGNED) :
    (uxst_bind_listener g l buf0 errlen w).err = ERR_NONE ∧
    (uxst_bind_listener g l buf0 errlen w).listener = l ∧
    (uxst_bind_listener g l buf0 errlen w).forward = [] ∧
    (uxst_bind_listener g l buf0 errlen w).unwind = [] := by
  unfold uxst_bind_listener
  simp [h]

/-- Witness for C6: a LISTEN listener is left untouched. -/
theorem bind_noop_when_not_assigned_witness :
    (uxst_bind_listener okGlobals { okListener with state := LiState.LI_LISTEN } "" 8
      okBindWorld).err = ERR_NONE ∧
    (uxst_bind_listener okGlobals { okListener with state := LiState.LI_LISTEN } "" 8
      okBindWorld).listener = { okListener with state := LiState.LI_LISTEN } ∧
    (uxst_bind_listener okGlobals { okListener with state := LiState.LI_LISTEN } "" 8
      okBindWorld).forward = [] ∧
    (uxst_bind_listener okGlobals { okListener with state := LiState.LI_LISTEN } "" 8
      okBindWorld).unwind = [] :=
  bind_noop_when_not_assigned okGlobals { okListener with state := LiState.LI_LISTEN } "" 8
    okBindWorld (by decide)

/-- Closed form of the err_return label on a chosen message. -/
theorem bind_err_return_eq (e : Nat) (s : String) (ext : Bool) (path : String) (fd : Int)
    (l : Listener) (buf : String) (errlen : Nat) (fwd uw : List BEv) :
    bind_err_return e (some s) ext path fd l buf errlen fwd uw =
      { err := e, listener := l, msg := some s,
        buf := if errlen ≠ 0 then (uxst_bind_errmsg s ext path fd).take (errlen - 1) else buf,
        forward := fwd, unwind := uw } := rfl

/-- Closed form of the err_unlink_back label on a chosen message. -/
theorem bind_err_unlink_back_eq (e : Nat) (s : String) (ext : Bool) (path : String) (fd : Int)
    (l : Listener) (buf : String) (errlen : Nat) (fwd uw : List BEv) :
    bind_err_unlink_back e (some s) ext path fd l buf errlen fwd uw =
      { err := e, listener := l, msg := some s,
        buf := if errlen ≠ 0 then (uxst_bind_errmsg s ext path fd).take (errlen - 1) else buf,
        forward := fwd,
        unwind := uw ++ (if ¬ ext ∧ path ≠ "" then [BEv.unlinkBackName] else []) } := rfl

/-- Closed form of the err_unlink_temp label on a chosen message. -/
theorem bind_err_unlink_temp_eq (e : Nat) (s : String) (ext : Bool) (path : String) (fd : Int)
    (l : Listener) (buf : String) (errlen : Nat) (fwd uw : List BEv) :
    bind_err_unlink_temp e (some s) ext path fd l buf errlen fwd uw =
      { err := e, listener := l, msg := some s,
        buf := if errlen ≠ 0 then (uxst_bind_errmsg s ext path fd).take (errlen - 1) else buf,
        forward := fwd,
        unwind := uw ++ (if ¬ ext ∧ path ≠ "" then [BEv.unlinkTempName] else []) ++
          [BEv.closeFd fd] ++ (if ¬ ext ∧ path ≠ "" then [BEv.unlinkBackName] else []) } := rfl

/-- Closed form of the err_rename label on a chosen message. -/
theorem bind_err_rename_eq (w : BindWorld) (e : Nat) (s : String) (ext : Bool) (path : String)
    (fd : Int) (l : Listener) (buf : String) (errlen : Nat) (fwd : List BEv) :
    bind_err_rename w e (some s) ext path fd l buf errlen fwd =
      { err := e, listener := l, msg := some s,
        buf := if errlen ≠ 0 then (uxst_bind_errmsg s ext path fd).take (errlen - 1) else buf,
        forward := fwd,
        unwind := ([BEv.renameBackToLive] ++
            (if w.renameBackErr = some Errno.ENOENT then [BEv.unlinkLivePath] else [])) ++
          (if ¬ ext ∧ path ≠ "" then [BEv.unlinkTempName] else []) ++
          [BEv.closeFd fd] ++ (if ¬ ext ∧ path ≠ "" then [BEv.unlinkBackName] else []) } := rfl

/-- A fd_ready invocation that chooses no error message leaves the caller
buffer exactly as it received it. -/
theorem bind_fd_ready_buf_of_none (g : Globals) (l : Listener) (w : BindWorld)
    (path : String) (fd : Int) (ext : Bool) (buf : String) (errlen : Nat) (fwd : List BEv) :
    (uxst_bind_fd_ready g l w path fd ext buf errlen fwd).msg = none →
    (uxst_bind_fd_ready g l w path fd ext buf errlen fwd).buf = buf := by
  unfold uxst_bind_fd_ready
  dsimp only
  repeat' split
  all_goals simp [bind_err_rename_eq, bind_err_unlink_temp_eq]

/-- A mksock invocation that chooses no error message leaves the caller
buffer exactly as it received it. -/
theorem bind_mksock_buf_of_none (g : Globals) (l : Listener) (w : BindWorld)
    (path : String) (buf : String) (errlen : Nat) :
    (uxst_bind_mksock g l w path buf errlen).msg = none →
    (uxst_bind_mksock g l w path buf errlen).buf = buf := by
  unfold uxst_bind_mksock
  dsimp only
  repeat' split
  all_goals
    first
    | apply bind_fd_ready_buf_of_none
    | simp [bind_err_return_eq, bind_err_unlink_back_eq]

/-- C10: with a non-empty caller buffer, bind clears the buffer up front, so
every return path that chooses no error message, the not-ASSIGNED no-op
included, leaves an empty string rather than stale contents. -/
theorem bind_errmsg_buffer_cleared (g : Globals) (l : Listener) (buf0 : String)
    (errlen : Nat) (w : BindWorld) (h : errlen ≠ 0) :
    ((uxst_bind_listener g l buf0 errlen w).msg = none →
      (uxst_bind_listener g l buf0 errlen w).buf = "") ∧
    (l.state ≠ LiState.LI_ASSIGNED → (uxst_bind_listener g l buf0 errlen w).buf = "") := by
  unfold uxst_bind_listener
  dsimp only
  rw [if_pos h]
  split
  · simp
  · rename_i hs
    constructor
    · dsimp only
      split
      · apply bind_fd_ready_buf_of_none
      · apply bind_mksock_buf_of_none
    · intro hc
      exact absurd hs (by simpa using hc)

/-- Witness for C10 on the success path with a stale buffer. -/
theorem bind_errmsg_buffer_cleared_witness :
    ((uxst_bind_listener okGlobals okListener "stale" 64 okBindWorld).msg = none →
      (uxst_bind_listener okGlobals okListener "stale" 64 okBindWorld).buf = "") ∧
    (okListener.state ≠ LiState.LI_ASSIGNED →
      (uxst_bind_listener okGlobals okListener "stale" 64 okBindWorld).buf = "") :=
  bind_errmsg_buffer_cleared okGlobals okListener "stale" 64 okBindWorld (by decide)

/-- C1: when socket creation succeeds inside connect but the new descriptor
index is not within the configured maximum socket count, the attempt is
rejected with the proxy-limited outcome, the descriptor is closed, the
configuration-limit error code is set together with the error flag, and no
backend log is emitted on this path. -/
theorem connect_maxsock_prxcond (g : Globals) (c : Connection) (fl : Nat)
    (w : ConnectWorld) (be : Backend) (fd : Nat) (hbe : connBackend c.target = some be)
    (hfd : w.socketFd = some fd) (hmax : g.maxsock ≤ fd) :
    (uxst_connect_server g c fl w).ret = SfErr.SF_ERR_PRXCOND ∧
    (uxst_connect_server g c fl w).conn.err_code = CoErr.CO_ER_CONF_FDLIM ∧
    (uxst_connect_server g c fl w).conn.flags.error = true ∧
    (uxst_connect_server g c fl w).fdOpen = none ∧
    (uxst_connect_server g c fl w).logs = [] := by
  unfold uxst_connect_server
  rw [hbe, hfd]
  simp [hmax, connFail]

/-- Witness for C1: descriptor 5 against maxsock 3. -/
theorem connect_maxsock_prxcond_witness :
    (uxst_connect_server okGlobals okConn 0 { okConnectWorld with socketFd := some 5 }).ret =
      SfErr.SF_ERR_PRXCOND ∧
    (uxst_connect_server okGlobals okConn 0
      { okConnectWorld with socketFd := some 5 }).conn.err_code = CoErr.CO_ER_CONF_FDLIM ∧
    (uxst_connect_server okGlobals okConn 0
      { okConnectWorld with socketFd := some 5 }).conn.flags.error = true ∧
    (uxst_connect_server okGlobals okConn 0
      { okConnectWorld with socketFd := some 5 }).fdOpen = none ∧
    (uxst_connect_server okGlobals okConn 0
      { okConnectWorld with socketFd := some 5 }).logs = [] :=
  connect_maxsock_prxcond okGlobals okConn 0 { okConnectWorld with socketFd := some 5 }
    { id := "b" } 5 rfl rfl (by decide)

/-- C3 (amended): every descriptor-creation errno inside connect yields the
resource-exhausted outcome with the error flag set, no descriptor held, the
documented error-code variant, and an emergency log naming the backend and
the configured maximum for the two descriptor-limit errnos and the two
memory-exhaustion errnos only; the unsupported-family and generic cases emit
no log. -/
theorem connect_socket_errno_classification (g : Globals) (c : Connection) (fl : Nat)
    (w : ConnectWorld) (be : Backend) (hbe : connBackend c.target = some be)
    (hfd : w.socketFd = none) :
    (uxst_connect_server g c fl w).ret = SfErr.SF_ERR_RESOURCE ∧
    (uxst_connect_server g c fl w).conn.flags.error = true ∧
    (uxst_connect_server g c fl w).fdOpen = none ∧
    (uxst_connect_server g c fl w).conn.err_code =
      (match w.socketErr with
        | Errno.ENFILE => CoErr.CO_ER_SYS_FDLIM
        | Errno.EMFILE => CoErr.CO_ER_PROC_FDLIM
        | Errno.ENOBUFS => CoErr.CO_ER_SYS_MEMLIM
        | Errno.ENOMEM => CoErr.CO_ER_SYS_MEMLIM
        | Errno.EAFNOSUPPORT => CoErr.CO_ER_NOPROTO
        | Errno.EPROTONOSUPPORT => CoErr.CO_ER_NOPROTO
        | _ => CoErr.CO_ER_SOCK_ERR) ∧
    (uxst_connect_server g c fl w).logs =
      (match w.socketErr with
        | Errno.ENFILE | Errno.EMFILE | Errno.ENOBUFS | Errno.ENOMEM =>
          [LogEvent.emerg be.id g.maxsock]
        | _ => []) := by
  unfold uxst_connect_server
  rw [hbe, hfd]
  dsimp only
  cases w.socketErr <;> simp [connFail]

/-- Witness for C3: the process-wide descriptor-limit errno. -/
theorem connect_socket_errno_classification_witness :
    (uxst_connect_server okGlobals okConn 0
      { okConnectWorld with socketFd := none, socketErr := Errno.ENFILE }).ret =
        SfErr.SF_ERR_RESOURCE ∧
    (uxst_connect_server okGlobals okConn 0
      { okConnectWorld with socketFd := none, socketErr := Errno.ENFILE }).conn.flags.error =
        true ∧
    (uxst_connect_server okGlobals okConn 0
      { okConnectWorld with socketFd := none, socketErr := Errno.ENFILE }).fdOpen = none ∧
    (uxst_connect_server okGlobals okConn 0
      { okConnectWorld with socketFd := none, socketErr := Errno.ENFILE }).conn.err_code =
      (match ({ okConnectWorld with socketFd := none, socketErr := Errno.ENFILE } : ConnectWorld).socketErr with
        | Errno.ENFILE => CoErr.CO_ER_SYS_FDLIM
        | Errno.EMFILE => CoErr.CO_ER_PROC_FDLIM
        | Errno.ENOBUFS => CoErr.CO_ER_SYS_MEMLIM
        | Errno.ENOMEM => CoErr.CO_ER_SYS_MEMLIM
        | Errno.EAFNOSUPPORT => CoErr.CO_ER_NOPROTO
        | Errno.EPROTONOSUPPORT => CoErr.CO_ER_NOPROTO
        | _ => CoErr.CO_ER_SOCK_ERR) ∧
    (uxst_connect_server okGlobals okConn 0
      { okConnectWorld with socketFd := none, socketErr := Errno.ENFILE }).logs =
      (match ({ okConnectWorld with socketFd := none, socketErr := Errno.ENFILE } : ConnectWorld).socketErr with
        | Errno.ENFILE | Errno.EMFILE | Errno.ENOBUFS | Errno.ENOMEM =>
          [LogEvent.emerg (Backend.id { id := "b" }) okGlobals.maxsock]
        | _ => []) :=
  connect_socket_errno_classification okGlobals okConn 0
    { okConnectWorld with socketFd := none, socketErr := Errno.ENFILE } { id := "b" } rfl rfl

/-- Counterexample for C3 as stated: with the unsupported-address-family
errno the outcome is resource-exhausted yet no emergency log at all is
emitted, so the claim that a log is emitted for every errno fails. -/
theorem connect_noproto_no_log_cex :
    (uxst_connect_server okGlobals okConn 0
      { okConnectWorld with socketFd := none, socketErr := Errno.EAFNOSUPPORT }).ret =
        SfErr.SF_ERR_RESOURCE ∧
    (uxst_connect_server okGlobals okConn 0
      { okConnectWorld with socketFd := none, socketErr := Errno.EAFNOSUPPORT }).conn.err_code =
        CoErr.CO_ER_NOPROTO ∧
    (uxst_connect_server okGlobals okConn 0
      { okConnectWorld with socketFd := none, socketErr := Errno.EAFNOSUPPORT }).logs = [] := by
  decide

/-- C8: under the listener invariant that a valid descriptor implies a state
of at least LISTEN, pause fully unbinds an abstract-named listener (state at
most ASSIGNED, descriptor closed) and reports stopped, while a path-backed
listener is left untouched and reports paused. -/
theorem pause_abstract_unbind_path_noop (l : Listener)
    (hv : 0 ≤ l.fd → LiState.LI_LISTEN.toNat ≤ l.state.toNat) :
    (l.path = "" →
      (uxst_pause_listener l).1 = 0 ∧
      (uxst_pause_listener l).2.state.toNat ≤ LiState.LI_ASSIGNED.toNat ∧
      ¬ 0 ≤ (uxst_pause_listener l).2.fd) ∧
    (l.path ≠ "" → (uxst_pause_listener l).1 = 1 ∧ (uxst_pause_listener l).2 = l) := by
  constructor
  · intro hp
    unfold uxst_pause_listener do_unbind_listener
    rw [if_neg (by simp [hp])]
    by_cases hgt : LiState.LI_ASSIGNED.toNat < l.state.toNat
    · simp only [if_pos hgt]
      refine ⟨by trivial, by simp [LiState.toNat], by simp⟩
    · simp only [if_neg hgt]
      refine ⟨by trivial, by omega, fun hfd => ?_⟩
      have := hv hfd
      simp [LiState.toNat] at this hgt
      omega
  · intro hp
    unfold uxst_pause_listener
    rw [if_pos hp]
    exact ⟨rfl, rfl⟩

/-- Witness for C8 at a bound abstract listener. -/
theorem pause_abstract_unbind_path_noop_witness :
    (({ okListener with state := LiState.LI_LISTEN, fd := 4, path := "" } : Listener).path = "" →
      (uxst_pause_listener { okListener with state := LiState.LI_LISTEN, fd := 4, path := "" }).1 = 0 ∧
      (uxst_pause_listener { okListener with state := LiState.LI_LISTEN, fd := 4, path := "" }).2.state.toNat ≤
        LiState.LI_ASSIGNED.toNat ∧
      ¬ 0 ≤ (uxst_pause_listener { okListener with state := LiState.LI_LISTEN, fd := 4, path := "" }).2.fd) ∧
    (({ okListener with state := LiState.LI_LISTEN, fd := 4, path := "" } : Listener).path ≠ "" →
      (uxst_pause_listener { okListener with state := LiState.LI_LISTEN, fd := 4, path := "" }).1 = 1 ∧
      (uxst_pause_listener { okListener with state := LiState.LI_LISTEN, fd := 4, path := "" }).2 =
        { okListener with state := LiState.LI_LISTEN, fd := 4, path := "" }) :=
  pause_abstract_unbind_path_noop
    { okListener with state := LiState.LI_LISTEN, fd := 4, path := "" } (by decide)

/-- The bind_all loop equals the spec-side OR-accumulation with early abort
stop: the outcome is the accumulated OR and the processed listeners are the
consumed prefix in list order. -/
theorem bind_all_from_or_until_abort (g : Globals) (buf : String) (errlen : Nat) :
    ∀ (acc : Nat) (ls : List (Listener × BindWorld)),
      uxst_bind_listeners_from g buf errlen acc ls =
        ((orUntilAbort acc (ls.map fun p => (uxst_bind_listener g p.1 buf errlen p.2).err)).1,
          (ls.take (orUntilAbort acc
              (ls.map fun p => (uxst_bind_listener g p.1 buf errlen p.2).err)).2).map
            fun p => uxst_bind_listener g p.1 buf errlen p.2)
  | acc, [] => by simp [uxst_bind_listeners_from, orUntilAbort]
  | acc, (l, w) :: rest => by
    simp only [uxst_bind_listeners_from, orUntilAbort, List.map_cons]
    by_cases hab :
        (acc ||| (uxst_bind_listener g l buf errlen w).err) &&& ERR_ABORT ≠ 0
    · simp [hab]
    · simp only [hab, if_neg, ite_false, not_false_eq_true, List.take_succ_cons,
        List.map_cons]
      rw [bind_all_from_or_until_abort g buf errlen
        (acc ||| (uxst_bind_listener g l buf errlen w).err) rest]

/-- The unbind_all loop applies the per-listener unbind to every attached
listener in order. -/
theorem unbind_all_from_map : ∀ ls : List Listener,
    uxst_unbind_listeners_from ls = ls.map fun l => (uxst_unbind_listener l).2
  | [] => rfl
  | l :: rest => by
    simp [uxst_unbind_listeners_from, unbind_all_from_map rest]

/-- C9: bind_all iterates the attached listeners in list order, accumulates
the outcomes with bitwise OR and stops early exactly when the accumulated
outcome carries the abort bit; unbind_all unbinds every attached listener
and always returns success. -/
theorem bind_all_or_accumulation_unbind_all_total (g : Globals) (buf : String)
    (errlen : Nat) (ls : List (Listener × BindWorld)) (us : List Listener) :
    (uxst_bind_listeners g buf errlen ls).1 =
      (orUntilAbort ERR_NONE (ls.map fun p => (uxst_bind_listener g p.1 buf errlen p.2).err)).1 ∧
    (uxst_bind_listeners g buf errlen ls).2 =
      (ls.take (orUntilAbort ERR_NONE
          (ls.map fun p => (uxst_bind_listener g p.1 buf errlen p.2).err)).2).map
        (fun p => uxst_bind_listener g p.1 buf errlen p.2) ∧
    (uxst_unbind_listeners us).1 = ERR_NONE ∧
    (uxst_unbind_listeners us).2 = us.map fun l => (uxst_unbind_listener l).2 := by
  refine ⟨?_, ?_, rfl, unbind_all_from_map us⟩
  · rw [uxst_bind_listeners, bind_all_from_or_until_abort g buf errlen ERR_NONE ls]
  · rw [uxst_bind_listeners, bind_all_from_or_until_abort g buf errlen ERR_NONE ls]

/-- C2 (amended): starting from a clean error code, connect returns ok
exactly when the descriptor is left open; every failure outcome closes the
descriptor and sets the error flag, and also sets the error code except on
the unsupported-target rejection and on the transport-initialization
failure, which set only the flag. -/
theorem connect_failure_closes_descriptor (g : Globals) (c : Connection) (fl : Nat)
    (w : ConnectWorld) (h : c.err_code = CoErr.CO_ER_NONE) :
    ((uxst_connect_server g c fl w).ret = SfErr.SF_ERR_NONE ↔
      ((uxst_connect_server g c fl w).fdOpen).isSome = true) ∧
    ((uxst_connect_server g c fl w).ret ≠ SfErr.SF_ERR_NONE →
      (uxst_connect_server g c fl w).conn.flags.error = true ∧
      ((uxst_connect_server g c fl w).conn.err_code ≠ CoErr.CO_ER_NONE ∨
        (uxst_connect_server g c fl w).failStep = some FailStep.badTarget ∨
        (uxst_connect_server g c fl w).failStep = some FailStep.xprtFail)) := by
  unfold uxst_connect_server uxst_connect_tail
  dsimp only
  repeat' split
  all_goals simp_all [connFail, connErrFlag, connSetWait]

/-- Witness for C2 on a clean connection across a fully successful world. -/
theorem connect_failure_closes_descriptor_witness :
    ((uxst_connect_server okGlobals okConn 0 okConnectWorld).ret = SfErr.SF_ERR_NONE ↔
      ((uxst_connect_server okGlobals okConn 0 okConnectWorld).fdOpen).isSome = true) ∧
    ((uxst_connect_server okGlobals okConn 0 okConnectWorld).ret ≠ SfErr.SF_ERR_NONE →
      (uxst_connect_server okGlobals okConn 0 okConnectWorld).conn.flags.error = true ∧
      ((uxst_connect_server okGlobals okConn 0 okConnectWorld).conn.err_code ≠
          CoErr.CO_ER_NONE ∨
        (uxst_connect_server okGlobals okConn 0 okConnectWorld).failStep =
          some FailStep.badTarget ∨
        (uxst_connect_server okGlobals okConn 0 okConnectWorld).failStep =
          some FailStep.xprtFail)) :=
  connect_failure_closes_descriptor okGlobals okConn 0 okConnectWorld rfl

/-- Counterexample for C2 as stated: rejecting an unsupported target kind is
a failure outcome of connect that sets the error flag while leaving the
error code untouched, so the error flag and error code are not always set
together on failure paths. -/
theorem connect_badtarget_errcode_unset_cex :
    ¬ ((uxst_connect_server okGlobals { okConn with target := ObjType.other } 0
          okConnectWorld).ret = SfErr.SF_ERR_NONE ∨
        (uxst_connect_server okGlobals { okConn with target := ObjType.other } 0
          okConnectWorld).conn.err_code ≠ CoErr.CO_ER_NONE) := by
  decide

/-- The connect tail never changes the waiting-for-L4 flag. -/
theorem connect_tail_waitL4 (c2 : Connection) (fd : Nat) (w : ConnectWorld) :
    (uxst_connect_tail c2 fd w).conn.flags.waitL4 = c2.flags.waitL4 := by
  unfold uxst_connect_tail
  dsimp only
  split <;> simp [connErrFlag]

/-- The connect tail primes the want-send hint exactly when still waiting. -/
theorem connect_tail_wantSend (c2 : Connection) (fd : Nat) (w : ConnectWorld) :
    (uxst_connect_tail c2 fd w).wantSend = c2.flags.waitL4 := by
  unfold uxst_connect_tail
  dsimp only
  split <;> simp

/-- The connect tail primes the cannot-send hint exactly when still waiting. -/
theorem connect_tail_cantSend (c2 : Connection) (fd : Nat) (w : ConnectWorld) :
    (uxst_connect_tail c2 fd w).cantSend = c2.flags.waitL4 := by
  unfold uxst_connect_tail
  dsimp only
  split <;> simp

/-- The connect tail primes the cannot-receive hint exactly when still
waiting. -/
theorem connect_tail_cantRecv (c2 : Connection) (fd : Nat) (w : ConnectWorld) :
    (uxst_connect_tail c2 fd w).cantRecv = c2.flags.waitL4 := by
  unfold uxst_connect_tail
  dsimp only
  split <;> simp

/-- C7: with a valid target, a descriptor below the maxsock ceiling and a
successful non-blocking (and, for a supervising process, close-on-exec)
setup: a synchronously completing connect call (success or the
already-connected errno) leaves the waiting-for-L4 flag clear and primes no
readiness hint; an in-progress or already-in-progress result sets the flag
and primes the want-send, cannot-send and cannot-receive hints; a timeout
yields the server-timeout outcome; refusal and every remaining errno yield
server-closed; and the transient resource errnos yield resource-exhausted
with the free-ports code distinguished from the address-in-use code. -/
theorem connect_sync_completion_classification (g : Globals) (c : Connection) (fl : Nat)
    (w : ConnectWorld) (be : Backend) (fd : Nat) (hbe : connBackend c.target = some be)
    (hfd : w.socketFd = some fd) (hmax : fd < g.maxsock)
    (hnb : w.fcntlNonblockOk = true) (hcx : g.master = 1 → w.fcntlCloexecOk = true) :
    ((w.connectErr = none ∨ w.connectErr = some Errno.EISCONN) →
      (uxst_connect_server g c fl w).conn.flags.waitL4 = false ∧
      (uxst_connect_server g c fl w).wantSend = false ∧
      (uxst_connect_server g c fl w).cantSend = false ∧
      (uxst_connect_server g c fl w).cantRecv = false) ∧
    ((w.connectErr = some Errno.EINPROGRESS ∨ w.connectErr = some Errno.EALREADY) →
      (uxst_connect_server g c fl w).conn.flags.waitL4 = true ∧
      (uxst_connect_server g c fl w).wantSend = true ∧
      (uxst_connect_server g c fl w).cantSend = true ∧
      (uxst_connect_server g c fl w).cantRecv = true) ∧
    (w.connectErr = some Errno.ETIMEDOUT →
      (uxst_connect_server g c fl w).ret = SfErr.SF_ERR_SRVTO) ∧
    (∀ e, w.connectErr = some e → e ≠ Errno.EINPROGRESS → e ≠ Errno.EALREADY →
      e ≠ Errno.EISCONN → e ≠ Errno.EAGAIN → e ≠ Errno.EADDRINUSE →
      e ≠ Errno.EADDRNOTAVAIL → e ≠ Errno.ETIMEDOUT →
      (uxst_connect_server g c fl w).ret = SfErr.SF_ERR_SRVCL) ∧
    ((w.connectErr = some Errno.EAGAIN ∨ w.connectErr = some Errno.EADDRNOTAVAIL) →
      (uxst_connect_server g c fl w).ret = SfErr.SF_ERR_RESOURCE ∧
      (uxst_connect_server g c fl w).conn.err_code = CoErr.CO_ER_FREE_PORTS) ∧
    (w.connectErr = some Errno.EADDRINUSE →
      (uxst_connect_server g c fl w).ret = SfErr.SF_ERR_RESOURCE ∧
      (uxst_connect_server g c fl w).conn.err_code = CoErr.CO_ER_ADDR_INUSE) := by
  have hm : ¬ g.maxsock ≤ fd := by omega
  have hcx2 : ¬ (g.master = 1 ∧ ¬ w.fcntlCloexecOk) := fun hh => hh.2 (hcx hh.1)
  unfold uxst_connect_server
  rw [hbe, hfd]
  dsimp only
  rw [if_neg hm, if_neg (by simp [hnb]), if_neg hcx2]
  rcases hce : w.connectErr with _ | e
  · simp [connect_tail_waitL4, connect_tail_wantSend, connect_tail_cantSend,
      connect_tail_cantRecv, connSetWait]
  · cases e <;>
      simp_all [connect_tail_waitL4, connect_tail_wantSend, connect_tail_cantSend,
        connect_tail_cantRecv, connSetWait, connFail]

/-- Witness for C7 on a synchronously succeeding connect call. -/
theorem connect_sync_completion_classification_witness :
    ((okConnectWorld.connectErr = none ∨ okConnectWorld.connectErr = some Errno.EISCONN) →
      (uxst_connect_server okGlobals okConn 0 okConnectWorld).conn.flags.waitL4 = false ∧
      (uxst_connect_server okGlobals okConn 0 okConnectWorld).wantSend = false ∧
      (uxst_connect_server okGlobals okConn 0 okConnectWorld).cantSend = false ∧
      (uxst_connect_server okGlobals okConn 0 okConnectWorld).cantRecv = false) ∧
    ((okConnectWorld.connectErr = some Errno.EINPROGRESS ∨
        okConnectWorld.connectErr = some Errno.EALREADY) →
      (uxst_connect_server okGlobals okConn 0 okConnectWorld).conn.flags.waitL4 = true ∧
      (uxst_connect_server okGlobals okConn 0 okConnectWorld).wantSend = true ∧
      (uxst_connect_server okGlobals okConn 0 okConnectWorld).cantSend = true ∧
      (uxst_connect_server okGlobals okConn 0 okConnectWorld).cantRecv = true) ∧
    (okConnectWorld.connectErr = some Errno.ETIMEDOUT →
      (uxst_connect_server okGlobals okConn 0 okConnectWorld).ret = SfErr.SF_ERR_SRVTO) ∧
    (∀ e, okConnectWorld.connectErr = some e → e ≠ Errno.EINPROGRESS →
      e ≠ Errno.EALREADY → e ≠ Errno.EISCONN → e ≠ Errno.EAGAIN →
      e ≠ Errno.EADDRINUSE → e ≠ Errno.EADDRNOTAVAIL → e ≠ Errno.ETIMEDOUT →
      (uxst_connect_server okGlobals okConn 0 okConnectWorld).ret = SfErr.SF_ERR_SRVCL) ∧
    ((okConnectWorld.connectErr = some Errno.EAGAIN ∨
        okConnectWorld.connectErr = some Errno.EADDRNOTAVAIL) →
      (uxst_connect_server okGlobals okConn 0 okConnectWorld).ret = SfErr.SF_ERR_RESOURCE ∧
      (uxst_connect_server okGlobals okConn 0 okConnectWorld).conn.err_code =
        CoErr.CO_ER_FREE_PORTS) ∧
    (okConnectWorld.connectErr = some Errno.EADDRINUSE →
      (uxst_connect_server okGlobals okConn 0 okConnectWorld).ret = SfErr.SF_ERR_RESOURCE ∧
      (uxst_connect_server okGlobals okConn 0 okConnectWorld).conn.err_code =
        CoErr.CO_ER_ADDR_INUSE) :=
  connect_sync_completion_classification okGlobals okConn 0 okConnectWorld { id := "b" } 1
    rfl rfl (by decide) rfl (fun hh => absurd hh (by decide))

/-- The retryable bit of a fd_ready outcome appears exactly when the kernel
bind call of a non-external listener fails with address-in-use. -/
theorem bind_fd_ready_retry_iff (g : Globals) (l : Listener) (w : BindWorld)
    (path : String) (fd : Int) (ext : Bool) (buf : String) (errlen : Nat) (fwd : List BEv) :
    (uxst_bind_fd_ready g l w path fd ext buf errlen fwd).err &&& ERR_RETRYABLE ≠ 0 ↔
      (fd < (g.maxsock : Int) ∧ w.fcntlOk = true ∧ ext = false ∧
        w.bindErr = some Errno.EADDRINUSE) := by
  unfold uxst_bind_fd_ready
  dsimp only
  repeat' split
  all_goals
    simp_all [bind_err_unlink_temp_eq, bind_err_rename_eq, ERR_RETRYABLE, ERR_FATAL,
      ERR_ALERT, ERR_NONE]

/-- A kernel bind failure with any errno other than address-in-use yields
the fatal bit from fd_ready. -/
theorem bind_fd_ready_fatal (g : Globals) (l : Listener) (w : BindWorld) (path : String)
    (fd : Int) (buf : String) (errlen : Nat) (fwd : List BEv)
    (hfd : fd < (g.maxsock : Int)) (hf : w.fcntlOk = true) (e : Errno)
    (he : w.bindErr = some e) (hne : e ≠ Errno.EADDRINUSE) :
    (uxst_bind_fd_ready g l w path fd false buf errlen fwd).err &&& ERR_FATAL ≠ 0 := by
  unfold uxst_bind_fd_ready
  dsimp only
  rw [if_neg (by omega)]
  rw [if_neg (by simp [hf])]
  rw [if_pos (by simp [he])]
  rw [if_neg (by simp [he, hne])]
  simp [bind_err_unlink_temp_eq, ERR_FATAL, ERR_ALERT]

/-- The retryable bit of a mksock outcome appears exactly when the front of
the path succeeds all the way to the kernel bind call and that call fails
with address-in-use. -/
theorem bind_mksock_retry_iff (g : Globals) (l : Listener) (w : BindWorld)
    (path : String) (buf : String) (errlen : Nat) :
    (uxst_bind_mksock g l w path buf errlen).err &&& ERR_RETRYABLE ≠ 0 ↔
      ((path ≠ "" →
          tmpNameLen g l < SUN_PATH_SIZE ∧ tmpNameLen g l < maxpathlen ∧
          ¬ unlinkFails w.unlinkTempRes ∧ ¬ unlinkFails w.unlinkBackRes ∧
          ¬ unlinkFails w.linkRes) ∧
        (∃ nfd, w.socketRes = some nfd ∧ (nfd : Int) < g.maxsock) ∧
        w.fcntlOk = true ∧ w.bindErr = some Errno.EADDRINUSE) := by
  unfold uxst_bind_mksock
  dsimp only
  repeat' split
  all_goals
    first
    | rw [bind_fd_ready_retry_iff]
      simp_all
      try omega
    | simp_all [bind_err_return_eq, bind_err_unlink_back_eq, ERR_RETRYABLE, ERR_FATAL,
        ERR_ALERT]
  all_goals omega

/-- A kernel bind failure with any errno other than address-in-use yields
the fatal bit from mksock. -/
theorem bind_mksock_fatal (g : Globals) (l : Listener) (w : BindWorld) (path : String)
    (buf : String) (errlen : Nat)
    (hpre : path ≠ "" →
      tmpNameLen g l < SUN_PATH_SIZE ∧ tmpNameLen g l < maxpathlen ∧
      ¬ unlinkFails w.unlinkTempRes ∧ ¬ unlinkFails w.unlinkBackRes ∧
      ¬ unlinkFails w.linkRes)
    (nfd : Nat) (hsock : w.socketRes = some nfd) (hmax : (nfd : Int) < g.maxsock)
    (hf : w.fcntlOk = true) (e : Errno) (he : w.bindErr = some e)
    (hne : e ≠ Errno.EADDRINUSE) :
    (uxst_bind_mksock g l w path buf errlen).err &&& ERR_FATAL ≠ 0 := by
  unfold uxst_bind_mksock
  dsimp only
  by_cases hp : path ≠ ""
  · obtain ⟨h1, h2, h3, h4, h5⟩ := hpre hp
    rw [if_pos hp, if_neg (by omega), if_neg (by omega), if_neg (by simp [h3]),
      if_neg (by simp [h4]), if_neg (by simp [h5]),
      if_neg (by simp only [maxpathlen, MAXPATHLEN, SUN_PATH_SIZE] at h1 ⊢; omega)]
    rw [hsock]
    exact bind_fd_ready_fatal g l w path (nfd : Int) buf errlen _ hmax hf e he hne
  · rw [if_neg hp, hsock]
    exact bind_fd_ready_fatal g l w path (nfd : Int) buf errlen _ hmax hf e he hne

set_option maxHeartbeats 800000 in
/-- C5: the retryable bit of a bind outcome appears exactly when a
non-externally-supplied listener reaches the kernel bind call and that call
fails with address-in-use; every other kernel bind errno yields the fatal
bit, and no other failure of the bind path produces the retryable bit. -/
theorem bind_retryable_iff_addrinuse (g : Globals) (l : Listener) (buf0 : String)
    (errlen : Nat) (w : BindWorld) :
    ((uxst_bind_listener g l buf0 errlen w).err &&& ERR_RETRYABLE ≠ 0 ↔
      (reachesKernelBind g l w ∧ w.bindErr = some Errno.EADDRINUSE)) ∧
    (∀ e, reachesKernelBind g l w → w.bindErr = some e → e ≠ Errno.EADDRINUSE →
      (uxst_bind_listener g l buf0 errlen w).err &&& ERR_FATAL ≠ 0) := by
  unfold uxst_bind_listener reachesKernelBind
  dsimp only
  by_cases hs : l.state ≠ LiState.LI_ASSIGNED
  · rw [if_pos hs]
    constructor
    · constructor
      · intro hfalse
        exact absurd hfalse (show ¬ ((ERR_NONE &&& ERR_RETRYABLE : Nat) ≠ 0) by decide)
      · rintro ⟨hr, -⟩
        exact absurd hr.1 hs
    · intro e hr
      exact absurd hr.1 hs
  · rw [if_neg hs]
    have hs2 : l.state = LiState.LI_ASSIGNED := not_not.mp hs
    by_cases hx : bindExt l w = true
    · rw [if_pos hx]
      constructor
      · rw [bind_fd_ready_retry_iff]
        simp [hx]
      · intro e hr
        rw [hr.2.1] at hx
        simp at hx
    · have hx2 : bindExt l w = false := by simpa using hx
      rw [if_neg hx]
      constructor
      · rw [bind_mksock_retry_iff]
        simp only [hs2, hx2, tmpNameLen, true_and, ne_eq]
        tauto
      · intro e hr he hne
        obtain ⟨-, -, hpre, ⟨nfd, hsock, hmax⟩, hf⟩ := hr
        refine bind_mksock_fatal g _ w _ _ errlen ?_ nfd hsock hmax hf e he hne
        intro hp
        simpa [tmpNameLen] using hpre hp

/-- The err_return label yields a well-shaped failure. -/
theorem failShape_err_return (e : Nat) (s : String) (ext : Bool) (path : String) (fd : Int)
    (l : Listener) (buf : String) (errlen : Nat) (fwd : List BEv) (w : BindWorld) :
    FailShape (bind_err_return e (some s) ext path fd l buf errlen fwd []) w ext path fd
      errlen := by
  refine ⟨?_, ?_, ?_, ?_⟩
  · simp [bind_err_return_eq, unwindShaped, unwindOrderedFrom]
  · simp [bind_err_return_eq]
  · intro hmem
    simp [bind_err_return_eq] at hmem
  · intro m hm hl
    have hsm : s = m := by simpa [bind_err_return_eq] using hm
    subst hsm
    simp [bind_err_return_eq, hl]

/-- The err_unlink_back label yields a well-shaped failure. -/
theorem failShape_unlink_back (e : Nat) (s : String) (ext : Bool) (path : String) (fd : Int)
    (l : Listener) (buf : String) (errlen : Nat) (fwd : List BEv) (w : BindWorld) :
    FailShape (bind_err_unlink_back e (some s) ext path fd l buf errlen fwd []) w ext path fd
      errlen := by
  refine ⟨?_, ?_, ?_, ?_⟩
  · by_cases hc : (ext = false ∧ ¬ path = "") <;>
      simp [bind_err_unlink_back_eq, unwindShaped, unwindOrderedFrom, BEv.unwindRank, hc]
  · simp [bind_err_unlink_back_eq]
  · intro hmem
    by_cases hc : (ext = false ∧ ¬ path = "") <;>
      simp [bind_err_unlink_back_eq, hc] at hmem
  · intro m hm hl
    have hsm : s = m := by simpa [bind_err_unlink_back_eq] using hm
    subst hsm
    simp [bind_err_unlink_back_eq, hl]

/-- The err_unlink_temp label yields a well-shaped failure. -/
theorem failShape_unlink_temp (e : Nat) (s : String) (ext : Bool) (path : String) (fd : Int)
    (l : Listener) (buf : String) (errlen : Nat) (fwd : List BEv) (w : BindWorld) :
    FailShape (bind_err_unlink_temp e (some s) ext path fd l buf errlen fwd []) w ext path fd
      errlen := by
  refine ⟨?_, ?_, ?_, ?_⟩
  · by_cases hc : (ext = false ∧ ¬ path = "") <;>
      simp [bind_err_unlink_temp_eq, unwindShaped, unwindOrderedFrom, BEv.unwindRank, hc]
  · simp [bind_err_unlink_temp_eq]
  · intro hmem
    by_cases hc : (ext = false ∧ ¬ path = "") <;>
      simp [bind_err_unlink_temp_eq, hc] at hmem
  · intro m hm hl
    have hsm : s = m := by simpa [bind_err_unlink_temp_eq] using hm
    subst hsm
    simp [bind_err_unlink_temp_eq, hl]

/-- The err_rename label yields a well-shaped failure headed by the backup
restoration, with the live-path unlink exactly when the backup vanished. -/
theorem failShape_rename (wr : BindWorld) (e : Nat) (s : String) (ext : Bool) (path : String)
    (fd : Int) (l : Listener) (buf : String) (errlen : Nat) (fwd : List BEv) :
    FailShape (bind_err_rename wr e (some s) ext path fd l buf errlen fwd) wr ext path fd
      errlen := by
  refine ⟨?_, ?_, ?_, ?_⟩
  · by_cases hc : (ext = false ∧ ¬ path = "") <;>
      by_cases hr : wr.renameBackErr = some Errno.ENOENT <;>
      simp [bind_err_rename_eq, unwindShaped, unwindOrderedFrom, BEv.unwindRank, hc, hr]
  · simp [bind_err_rename_eq]
  · intro hmem
    constructor
    · by_cases hc : (ext = false ∧ ¬ path = "") <;>
        by_cases hr : wr.renameBackErr = some Errno.ENOENT <;>
        simp [bind_err_rename_eq, hc, hr]
    · by_cases hc : (ext = false ∧ ¬ path = "") <;>
        by_cases hr : wr.renameBackErr = some Errno.ENOENT <;>
        simp [bind_err_rename_eq, hc, hr]
  · intro m hm hl
    have hsm : s = m := by simpa [bind_err_rename_eq] using hm
    subst hsm
    simp [bind_err_rename_eq, hl]

/-- With an external address spec the message format ignores the descriptor
number, so the canonical descriptor of a non-external failure is free. -/
theorem failShape_fd_irrel (r : BindResult) (w : BindWorld) (path : String) (fd fd2 : Int)
    (errlen : Nat) (hf : FailShape r w false path fd errlen) :
    FailShape r w false path fd2 errlen := by
  refine ⟨hf.1, hf.2.1, hf.2.2.1, fun m hm hl => ?_⟩
  rw [hf.2.2.2 m hm hl]
  rfl

/-- Every failing exit of fd_ready is well shaped. -/
theorem bind_fd_ready_failShape (g : Globals) (l : Listener) (w : BindWorld) (path : String)
    (fd : Int) (ext : Bool) (buf : String) (errlen : Nat) (fwd : List BEv) :
    (uxst_bind_fd_ready g l w path fd ext buf errlen fwd).err ≠ ERR_NONE →
    FailShape (uxst_bind_fd_ready g l w path fd ext buf errlen fwd) w ext path fd errlen := by
  unfold uxst_bind_fd_ready
  dsimp only
  repeat' split
  all_goals intro h
  all_goals
    first
    | apply failShape_unlink_temp
    | apply failShape_rename
    | exact absurd rfl h

/-- Every failing exit of mksock is well shaped, with the non-external
message format anchored at the listener descriptor. -/
theorem bind_mksock_failShape (g : Globals) (l : Listener) (w : BindWorld) (path : String)
    (buf : String) (errlen : Nat) :
    (uxst_bind_mksock g l w path buf errlen).err ≠ ERR_NONE →
    FailShape (uxst_bind_mksock g l w path buf errlen) w false path l.fd errlen := by
  unfold uxst_bind_mksock
  dsimp only
  repeat' split
  all_goals intro h
  all_goals
    first
    | apply failShape_err_return
    | apply failShape_unlink_back
    | exact failShape_fd_irrel _ w path _ l.fd errlen (bind_fd_ready_failShape g l w path _
        false buf errlen _ h)

set_option maxHeartbeats 800000 in
/-- C4: on every failure of bind the unwind runs in strict reverse order,
unlinking the temp file and closing the descriptor before unlinking the
backup file; when the failure is the point-of-no-return rename itself the
backup is first renamed back onto the live path, falling back to unlinking
the live path exactly when the backup is gone; and the error message
combines the static reason text with the address path, or with the
descriptor number for externally supplied sockets, bounded by the caller
buffer length. -/
theorem bind_failure_unwind_order (g : Globals) (l : Listener) (buf0 : String)
    (errlen : Nat) (w : BindWorld)
    (h : (uxst_bind_listener g l buf0 errlen w).err ≠ ERR_NONE) :
    FailShape (uxst_bind_listener g l buf0 errlen w) w (bindExt l w) l.path
      (effectiveFd l w) errlen := by
  unfold uxst_bind_listener at h ⊢
  dsimp only at h ⊢
  by_cases hs : l.state ≠ LiState.LI_ASSIGNED
  · rw [if_pos hs] at h
    exact absurd rfl h
  · rw [if_neg hs] at h ⊢
    by_cases hx : bindExt l w = true
    · rw [if_pos hx] at h ⊢
      rw [hx]
      exact bind_fd_ready_failShape g _ w _ _ true _ errlen _ h
    · have hx2 : bindExt l w = false := by simpa using hx
      rw [if_neg hx] at h ⊢
      rw [hx2]
      exact bind_mksock_failShape g _ w _ _ errlen h

/-- Witness for C4 at a failing kernel bind call on a path-backed listener. -/
theorem bind_failure_unwind_order_witness :
    FailShape (uxst_bind_listener okGlobals okListener "stale" 16
        { okBindWorld with bindErr := some Errno.EADDRINUSE })
      { okBindWorld with bindErr := some Errno.EADDRINUSE }
      (bindExt okListener { okBindWorld with bindErr := some Errno.EADDRINUSE })
      okListener.path
      (effectiveFd okListener { okBindWorld with bindErr := some Errno.EADDRINUSE }) 16 :=
  bind_failure_unwind_order okGlobals okListener "stale" 16
    { okBindWorld with bindErr := some Errno.EADDRINUSE } (by decide)


end Uxst
